import Mathlib

/-!
Verification development for the polymarket trading bot core
(`src/core/state.py`, `src/core/risk.py`, `src/core/executor.py`).

Shallow embedding conventions:
* Python floats are idealised as rationals (`ℚ`); `round(x, n)` is modelled
  as decimal round-half-to-even (`pyRound`), matching Python's documented
  rounding mode.
* Python dicts parsed from JSON are modelled by the `Json` AST; a subscript
  `d[k]` is `Json.getItem`, raising `KeyError` on a missing key of an object
  and `TypeError` on a non-object, exactly as Python does.
* A Python function that can raise is embedded with `Except PyErr`;
  exception messages are reduced to short tags.
* ISO-8601 UTC timestamps are kept as strings; `datetime.fromisoformat(s).date()`
  is modelled as the first ten characters of the string (`isoDate`), which is
  what it returns on every well-formed ISO timestamp.
-/

namespace PolyBot

/-- Python exceptions that the embedded code can raise. -/
inductive PyErr where
  | keyError (k : String)
  | typeError
  | zeroDivisionError
  deriving Repr, DecidableEq

/-- JSON values, as produced by Python's `json` module (numbers idealised to `ℚ`). -/
inductive Json where
  | null
  | bool (b : Bool)
  | num (q : ℚ)
  | str (s : String)
  | arr (xs : List Json)
  | obj (fields : List (String × Json))

/-- Python `d[k]`: a key lookup on an object, `KeyError` when the key is
absent, `TypeError` when the value is not a dict (e.g. a list or a number). -/
def Json.getItem : Json → String → Except PyErr Json
  | .obj fields, k =>
    match fields.lookup k with
    | some v => .ok v
    | none => .error (.keyError k)
  | _, _ => .error .typeError

/-- Round a rational to the nearest integer, ties to even
(Python's rounding mode for `round`). -/
def roundHalfEven (x : ℚ) : ℤ :=
  if x - ⌊x⌋ < 1/2 then ⌊x⌋
  else if 1/2 < x - ⌊x⌋ then ⌊x⌋ + 1
  else if ⌊x⌋ % 2 = 0 then ⌊x⌋ else ⌊x⌋ + 1

/-- Python `round(x, n)` on the rational idealisation of floats. -/
def pyRound (x : ℚ) (n : ℕ) : ℚ :=
  (roundHalfEven (x * 10 ^ n) : ℚ) / 10 ^ n

/-- Python truthiness of an optional float argument
(`None` and `0.0` are falsy). -/
def truthyBankroll : Option ℚ → Bool
  | none => false
  | some b => decide (b ≠ 0)

/-- The date part of an ISO-8601 timestamp string, as returned by
`datetime.fromisoformat(ts).date()`. -/
def isoDate (ts : String) : String := ts.take 10

/-! ## State store (`src/core/state.py`) -/

/-- `Trade` dataclass from `state.py`: identity and intent fields, plus the
resolution tail that is absent (`none`) until the trade is resolved. -/
structure Trade where
  id : String
  timestamp : String
  market_id : String
  token_id : String
  direction : String
  outcome : String
  entry_price : ℚ
  size : ℚ
  amount_usd : ℚ
  order_id : Option String
  tx_hash : Option String
  strategy : String
  resolved : Bool
  result : Option String
  pnl : Option ℚ
  resolution_time : Option String
  deriving Repr, DecidableEq

/-- The `totals` aggregate of the ledger state. -/
structure Totals where
  pnl : ℚ
  wins : ℕ
  losses : ℕ
  total_trades : ℕ
  deriving Repr, DecidableEq

/-- In-memory ledger state held by `StateManager._state`, with the keys of
`_default_state` as fields (`tracking` and top-level scalars inlined). -/
structure BotState where
  version : ℚ
  created : String
  trades : List Trade
  totals : Totals
  last_signal : Option String
  last_market_id : Option String
  last_trade_time : Option String
  metadata : List (String × Json)
  last_saved : Option String

/-- `StateManager._default_state`: the fresh ledger skeleton. -/
def defaultBotState (now : String) : BotState where
  version := 1
  created := now
  trades := []
  totals := ⟨0, 0, 0, 0⟩
  last_signal := none
  last_market_id := none
  last_trade_time := none
  metadata := []
  last_saved := none

/-- `StateManager.add_trade`: append the trade, bump `total_trades`, update
the tracking slots.  (The `save()` call it makes only touches persistence
and the `last_saved` stamp, modelled separately by `saveJson`.) -/
def addTrade (s : BotState) (t : Trade) : BotState :=
  { s with
      trades := s.trades ++ [t]
      totals := { s.totals with total_trades := s.totals.total_trades + 1 }
      last_trade_time := some t.timestamp
      last_market_id := some t.market_id }

/-- The first trade in the list whose id matches, if any — the trade that the
`for` loop of `resolve_trade` would stop at. -/
def findTrade (ts : List Trade) (tid : String) : Option Trade :=
  match ts with
  | [] => none
  | t :: rest => if t.id = tid then some t else findTrade rest tid

/-- The body of `resolve_trade`'s loop over `self._state['trades']`: update
the first trade whose id matches (storing `round(pnl, 4)`), or report that no
trade matched (`none`). -/
def resolveInTrades (ts : List Trade) (tid res : String) (pnl : ℚ)
    (now : String) : Option (List Trade) :=
  match ts with
  | [] => none
  | t :: rest =>
    if t.id = tid then
      some ({ t with
                resolved := true
                result := some res
                pnl := some (pyRound pnl 4)
                resolution_time := some now } :: rest)
    else
      match resolveInTrades rest tid res pnl now with
      | some rest2 => some (t :: rest2)
      | none => none

/-- `StateManager.resolve_trade`: if a trade with the id exists, set its
resolution fields and update the totals (adding the unrounded `pnl`, and
counting any non-`win` result as a loss); otherwise log a warning and leave
the state unchanged. -/
def resolveTrade (s : BotState) (tid res : String) (pnl : ℚ)
    (now : String) : BotState :=
  match resolveInTrades s.trades tid res pnl now with
  | some trades2 =>
    { s with
        trades := trades2
        totals :=
          { s.totals with
              pnl := s.totals.pnl + pnl
              wins := if res = "win" then s.totals.wins + 1 else s.totals.wins
              losses := if res = "win" then s.totals.losses else s.totals.losses + 1 } }
  | none => s

/-- `StateManager.get_unresolved_trades`. -/
def unresolvedTrades (s : BotState) : List Trade :=
  s.trades.filter (fun t => !t.resolved)

/-- Number of resolved trades in a ledger's trade list. -/
def resolvedCount (ts : List Trade) : ℕ :=
  (ts.filter (fun t => t.resolved)).length

/-- Sum of the stored `pnl` field over the resolved trades. -/
def resolvedPnlSum (ts : List Trade) : ℚ :=
  (ts.filter (fun t => t.resolved)).foldr (fun t acc => t.pnl.getD 0 + acc) 0

/-- The ledger invariants of the spec (§3): trade count, win/loss count
against resolved count, and totals.pnl against the per-trade pnl sum. -/
def LedgerInv (s : BotState) : Prop :=
  s.totals.total_trades = s.trades.length ∧
  s.totals.wins + s.totals.losses = resolvedCount s.trades ∧
  s.totals.pnl = resolvedPnlSum s.trades

instance (s : BotState) : Decidable (LedgerInv s) := by
  unfold LedgerInv; infer_instance

/-! ## Risk manager (`src/core/risk.py`) -/

/-- The risk configuration values read in `RiskManager.__init__`, with the
same defaults. -/
structure RiskConfig where
  base_bet : ℚ := 5
  min_bet : ℚ := 3
  max_bet : ℚ := 50
  sizing_mode : String := "fixed"
  max_daily_loss : ℚ := 100
  max_total_loss : ℚ := 500
  max_open_positions : ℕ := 3
  max_consecutive_losses : ℕ := 5
  max_entry_price : ℚ := 3/5
  min_spread : ℚ := 1/100
  max_spread : ℚ := 1/10
  bankroll_percent : ℚ := 1/50
  win_rates : List (String × ℚ) := []
  default_win_rate : ℚ := 11/20

/-- `RiskManager._fixed_size`: tiered bet by entry price. -/
def fixedSize (cfg : RiskConfig) (entry_price : ℚ) : ℚ :=
  if entry_price < 2/5 then cfg.base_bet * (3/2)
  else if entry_price < 1/2 then cfg.base_bet
  else if entry_price < 11/20 then cfg.base_bet * (3/4)
  else cfg.base_bet * (1/2)

/-- `RiskManager._percent_size`. -/
def percentSize (cfg : RiskConfig) (bankroll : ℚ) : ℚ :=
  bankroll * cfg.bankroll_percent

/-- `RiskManager._kelly_size`: half-Kelly for a binary market, falling back
to `min_bet` in the degenerate cases, and capping the stake at 10% of the
bankroll otherwise. -/
def kellySize (cfg : RiskConfig) (bankroll win_rate entry_price fraction : ℚ) : ℚ :=
  if win_rate ≤ 1/2 ∨ entry_price ≤ 0 ∨ 1 ≤ entry_price then cfg.min_bet
  else
    let b := (1 - entry_price) / entry_price
    let p := win_rate
    let q := 1 - p
    let kelly_full := (b * p - q) / b
    if kelly_full ≤ 0 then cfg.min_bet
    else min (kelly_full * fraction * bankroll) (bankroll * (1/10))

/-- The win-rate lookup of the `kelly` branch of `get_position_size`:
`win_rates[strategy_direction]`, else `default_win_rate`. -/
def lookupWinRate (cfg : RiskConfig) (strategy direction : String) : ℚ :=
  (cfg.win_rates.lookup (strategy ++ "_" ++ direction)).getD cfg.default_win_rate

/-- The `[min_bet, max_bet]` clamp applied after mode dispatch. -/
def clampBet (cfg : RiskConfig) (size : ℚ) : ℚ :=
  max cfg.min_bet (min cfg.max_bet size)

/-- `RiskManager.get_position_size`: mode dispatch, the bet clamp, the
loss-streak penalty (`0.5^(streak-2)` once the in-memory consecutive-loss
counter reaches 3), and the final rounding to 2 decimals. -/
def getPositionSize (cfg : RiskConfig) (entry_price : ℚ)
    (direction strategy : String) (bankroll : Option ℚ)
    (consecutiveLosses : ℕ) : ℚ :=
  let size :=
    if cfg.sizing_mode = "fixed" then fixedSize cfg entry_price
    else if cfg.sizing_mode = "percent" ∧ truthyBankroll bankroll then
      percentSize cfg (bankroll.getD 0)
    else if cfg.sizing_mode = "kelly" ∧ truthyBankroll bankroll then
      kellySize cfg (bankroll.getD 0) (lookupWinRate cfg strategy direction)
        entry_price (1/2)
    else cfg.base_bet
  let size := clampBet cfg size
  let size :=
    if 3 ≤ consecutiveLosses then size * (1/2) ^ (consecutiveLosses - 2)
    else size
  pyRound size 2

/-- `RiskManager._calculate_daily_pnl`: sum the stored `pnl` of the resolved
trades whose CREATION timestamp (`trade['timestamp']`) falls on the given
UTC date. -/
def calculateDailyPnl (today : String) (trades : List Trade) : ℚ :=
  trades.foldl
    (fun acc t =>
      if t.resolved ∧ isoDate t.timestamp = today then acc + t.pnl.getD 0
      else acc)
    0

/-- Modelled from the spec (§4.2 step 2), for comparison with
`calculateDailyPnl`: today's realized P&L filters resolved trades by their
RESOLUTION date, not their creation date. -/
def specDailyPnl (today : String) (trades : List Trade) : ℚ :=
  trades.foldl
    (fun acc t =>
      if t.resolved ∧ (t.resolution_time.map isoDate) = some today then
        acc + t.pnl.getD 0
      else acc)
    0

/-- `RiskManager.check_kill_switch`, embedded with a raised
`KillSwitchTriggered` as `Except.error` (tagged with the limit that fired)
and a returned bool as `Except.ok`.  `st = none` models a `RiskManager`
constructed without a state manager. -/
def checkKillSwitch (cfg : RiskConfig) (st : Option BotState)
    (consecutiveLosses : ℕ) (today : String) : Except String Bool :=
  match st with
  | none => .ok true
  | some s =>
    if s.totals.pnl < -cfg.max_total_loss then .error "total loss limit exceeded"
    else if calculateDailyPnl today s.trades < -cfg.max_daily_loss then
      .error "daily loss limit exceeded"
    else if cfg.max_consecutive_losses ≤ consecutiveLosses then .ok false
    else if cfg.max_open_positions ≤ (unresolvedTrades s).length then .ok false
    else .ok true

/-! ## Order executor (`src/core/executor.py`) -/

/-- Execution parameters read in `OrderExecutor.__init__` (defaults kept). -/
structure ExecConfig where
  max_retries : ℕ := 3
  retry_delay : ℚ := 2
  verify_timeout : ℚ := 30
  max_spread : ℚ := 1/10
  max_entry_price : ℚ := 3/5
  deriving Repr

/-- The fields of `ExecutionResult` that the retry logic inspects. -/
structure ExecResult where
  success : Bool
  order_id : Option String := none
  error : Option String := none
  deriving Repr, DecidableEq

/-- What one iteration of `_execute_with_retry` observes from the outside
world: `create_order` raised, `create_order` returned a dict without an
`orderID`/`id` entry, or an order id came back and `_verify_fill` returned
the given result. -/
inductive AttemptOutcome where
  | raised (e : String)
  | noId
  | verified (r : ExecResult)

/-- Python `a / b`, raising `ZeroDivisionError` on a zero divisor. -/
def pyDiv (a b : ℚ) : Except PyErr ℚ :=
  if b = 0 then .error .zeroDivisionError else .ok (a / b)

/-- One `for attempt in range(max_retries)` pass of `_execute_with_retry`,
continued recursively; alongside the result it returns the list of backoff
sleep durations executed, in order.  Note that the `continue` taken on a
missing order id jumps past the backoff block at the bottom of the loop
body, so that path records no sleep. -/
def retryLoop (cfg : ExecConfig) (outcomes : ℕ → AttemptOutcome) :
    ℕ → ℕ → Option String → ExecResult × List ℚ
  | 0, _, lastError =>
    ({ success := false,
       error := some ("all attempts failed, last error " ++ lastError.getD "None") }, [])
  | remaining + 1, attempt, lastError =>
    let backoff : List ℚ :=
      if attempt < cfg.max_retries - 1 then [cfg.retry_delay * 2 ^ attempt]
      else []
    match outcomes attempt with
    | .noId => retryLoop cfg outcomes remaining (attempt + 1) lastError
    | .raised e =>
      let rest := retryLoop cfg outcomes remaining (attempt + 1) (some e)
      (rest.1, backoff ++ rest.2)
    | .verified r =>
      if r.success then (r, [])
      else
        let rest := retryLoop cfg outcomes remaining (attempt + 1) lastError
        (rest.1, backoff ++ rest.2)

/-- `OrderExecutor._execute_with_retry`: the `for attempt in range(max_retries)`
loop, started at attempt 0 with no recorded error. -/
def executeWithRetry (cfg : ExecConfig) (outcomes : ℕ → AttemptOutcome) :
    ExecResult × List ℚ :=
  retryLoop cfg outcomes cfg.max_retries 0 none

/-- The orderbook fields `execute_buy` reads. -/
structure Orderbook where
  bid : ℚ
  ask : ℚ
  spread : ℚ
  deriving Repr, DecidableEq

/-- Outcome of `execute_buy`'s pre-flight phase: an early failure result, or
the price and share size handed to `_execute_with_retry`. -/
inductive BuyPrep where
  | rejected (reason : String)
  | proceed (price size : ℚ)
  deriving Repr, DecidableEq

/-- The pre-flight checks and share-size computation of
`OrderExecutor.execute_buy` (a fetched orderbook is given; a fetch failure
is an earlier return not modelled here).  `max_price or self.max_entry_price`
uses Python truthiness, so a passed `0.0` also selects the default. -/
def executeBuyPrep (cfg : ExecConfig) (book : Orderbook) (amount_usd : ℚ)
    (max_price : Option ℚ) : Except PyErr BuyPrep :=
  let mp :=
    match max_price with
    | some p => if p = 0 then cfg.max_entry_price else p
    | none => cfg.max_entry_price
  if cfg.max_spread < book.spread then .ok (.rejected "spread too wide")
  else if mp < book.ask then .ok (.rejected "ask exceeds max")
  else
    match pyDiv amount_usd book.ask with
    | .ok size => .ok (.proceed book.ask size)
    | .error e => .error e

/-! ## Persistence (`StateManager.save` / `StateManager._load`) -/

/-- Encode an optional string the way `json.dump` writes `None` / `str`. -/
def encodeOptStr : Option String → Json
  | none => .null
  | some s => .str s

/-- Encode an optional float. -/
def encodeOptNum : Option ℚ → Json
  | none => .null
  | some q => .num q

/-- `Trade.to_dict` followed by JSON encoding, keys in dataclass field
order. -/
def encodeTrade (t : Trade) : Json :=
  .obj
    [("id", .str t.id), ("timestamp", .str t.timestamp),
     ("market_id", .str t.market_id), ("token_id", .str t.token_id),
     ("direction", .str t.direction), ("outcome", .str t.outcome),
     ("entry_price", .num t.entry_price), ("size", .num t.size),
     ("amount_usd", .num t.amount_usd), ("order_id", encodeOptStr t.order_id),
     ("tx_hash", encodeOptStr t.tx_hash), ("strategy", .str t.strategy),
     ("resolved", .bool t.resolved), ("result", encodeOptStr t.result),
     ("pnl", encodeOptNum t.pnl),
     ("resolution_time", encodeOptStr t.resolution_time)]

/-- JSON encoding of the `totals` dict. -/
def encodeTotals (tot : Totals) : Json :=
  .obj
    [("pnl", .num tot.pnl), ("wins", .num tot.wins),
     ("losses", .num tot.losses), ("total_trades", .num tot.total_trades)]

/-- JSON encoding of the whole `_state` dict, keys in `_default_state`
order, with `last_saved` appended when it has been set. -/
def encodeState (s : BotState) : Json :=
  .obj
    ([("version", .num s.version), ("created", .str s.created),
      ("trades", .arr (s.trades.map encodeTrade)),
      ("totals", encodeTotals s.totals),
      ("tracking",
        .obj
          [("last_signal", encodeOptStr s.last_signal),
           ("last_market_id", encodeOptStr s.last_market_id),
           ("last_trade_time", encodeOptStr s.last_trade_time)]),
      ("metadata", .obj s.metadata)] ++
      match s.last_saved with
      | none => []
      | some ts => [("last_saved", .str ts)])

/-- `StateManager.save`: stamp `last_saved`, then serialize the full state.
(The temp-file write and atomic rename are filesystem effects; the document
durably replacing the previous one is this JSON value.) -/
def saveJson (s : BotState) (now : String) : Json :=
  encodeState { s with last_saved := some now }

/-- What `_load` finds on disk: no state file, a file `json.load` rejects,
or a successfully parsed JSON document. -/
inductive LoadInput where
  | missing
  | unparseable
  | parsed (j : Json)

/-- `StateManager._load`: a missing file or a `json.JSONDecodeError` /
`KeyError` falls back to the default state; the `state['totals']['total_trades']`
access in the success-path log line is the only structural validation, and a
`TypeError` from it (non-dict document) propagates uncaught. -/
def loadState (inp : LoadInput) (now : String) : Except PyErr Json :=
  match inp with
  | .missing => .ok (encodeState (defaultBotState now))
  | .unparseable => .ok (encodeState (defaultBotState now))
  | .parsed j =>
    match j.getItem "totals" >>= fun tot => tot.getItem "total_trades" with
    | .ok _ => .ok j
    | .error (.keyError _) => .ok (encodeState (defaultBotState now))
    | .error e => .error e

/-- Decode an optional string field back. -/
def decodeOptStr : Json → Option (Option String)
  | .null => some none
  | .str s => some (some s)
  | _ => none

/-- Decode an optional number field back. -/
def decodeOptNum : Json → Option (Option ℚ)
  | .null => some none
  | .num q => some (some q)
  | _ => none

/-- Read a `Trade` back out of its JSON dict, the way the rest of the code
reads the trade dicts field by field. -/
def decodeTrade (j : Json) : Option Trade :=
  match j with
  | .obj
      [("id", .str id), ("timestamp", .str timestamp),
       ("market_id", .str market_id), ("token_id", .str token_id),
       ("direction", .str direction), ("outcome", .str outcome),
       ("entry_price", .num entry_price), ("size", .num size),
       ("amount_usd", .num amount_usd), ("order_id", oid),
       ("tx_hash", txh), ("strategy", .str strategy),
       ("resolved", .bool resolved), ("result", res),
       ("pnl", pnl), ("resolution_time", rt)] =>
    match decodeOptStr oid, decodeOptStr txh, decodeOptStr res,
        decodeOptNum pnl, decodeOptStr rt with
    | some order_id, some tx_hash, some result, some pnl2, some resolution_time =>
      some
        ⟨id, timestamp, market_id, token_id, direction, outcome, entry_price,
         size, amount_usd, order_id, tx_hash, strategy, resolved, result,
         pnl2, resolution_time⟩
    | _, _, _, _, _ => none
  | _ => none

/-- Read a count field (a non-negative integer JSON number) back out. -/
def decodeNat (j : Json) : Option ℕ :=
  match j with
  | .num q => if q = (q.num.toNat : ℚ) then some q.num.toNat else none
  | _ => none

/-- Read the `totals` aggregate back out of a state document. -/
def decodeTotals (j : Json) : Option Totals :=
  match j.getItem "totals" with
  | .ok (.obj [("pnl", .num pnl), ("wins", wj), ("losses", lj),
      ("total_trades", ttj)]) =>
    match decodeNat wj, decodeNat lj, decodeNat ttj with
    | some w, some l, some tt => some ⟨pnl, w, l, tt⟩
    | _, _, _ => none
  | _ => none

/-- Decode a list of trade dicts, failing if any element fails. -/
def decodeTradeList : List Json → Option (List Trade)
  | [] => some []
  | j :: rest =>
    match decodeTrade j, decodeTradeList rest with
    | some t, some ts => some (t :: ts)
    | _, _ => none

/-- Read the trade sequence back out of a state document. -/
def decodeTrades (j : Json) : Option (List Trade) :=
  match j.getItem "trades" with
  | .ok (.arr xs) => decodeTradeList xs
  | _ => none

/-! ## Concrete sample inputs used by the claim checks -/

/-- A freshly created (unresolved) trade with id `t1`. -/
def sampleTrade : Trade :=
  ⟨"t1", "2026-10-12T09:00:00+00:00", "m1", "tok1", "long", "YES", 1/2, 10, 5,
   none, none, "default", false, none, none, none⟩

/-- The ledger after adding `sampleTrade` to a fresh default state. -/
def sampleLedger : BotState :=
  addTrade (defaultBotState "2026-10-12T00:00:00+00:00") sampleTrade

/-- `sampleLedger` after resolving `t1` once as a win of 10. -/
def resolvedOnce : BotState :=
  resolveTrade sampleLedger "t1" "win" 10 "2026-10-12T10:00:00+00:00"

/-- `resolvedOnce` after a second `resolve_trade` call on the same id. -/
def resolvedTwice : BotState :=
  resolveTrade resolvedOnce "t1" "win" 10 "2026-10-12T11:00:00+00:00"

/-- `sampleLedger` after resolving `t1` with a pnl (1/3) that is not
representable in 4 decimal places. -/
def resolvedThird : BotState :=
  resolveTrade sampleLedger "t1" "win" (1/3) "2026-10-12T10:00:00+00:00"

/-- A trade created on 2026-10-11 and resolved the next day at a loss. -/
def overnightTrade : Trade :=
  ⟨"t2", "2026-10-11T09:00:00+00:00", "m1", "tok1", "long", "YES", 1/2, 10, 5,
   none, none, "default", true, some "loss", some (-50),
   some "2026-10-12T08:00:00+00:00"⟩

/-- A ledger whose cumulative realized P&L is -600. -/
def deepLossState : BotState :=
  { defaultBotState "2026-10-12T00:00:00+00:00" with
      totals := ⟨-600, 0, 60, 60⟩ }

/-- The default risk configuration with kelly sizing selected. -/
def kellyCfg : RiskConfig := { sizing_mode := "kelly" }

/-- A fixed-mode configuration matching the spec example (base 5) with a
clamp wide enough to show all four tier values. -/
def tierCfg : RiskConfig := { base_bet := 5, min_bet := 1, max_bet := 50 }

/-! ## Rounding lemmas -/

theorem roundHalfEven_ge_floor (x : ℚ) : ⌊x⌋ ≤ roundHalfEven x := by
  unfold roundHalfEven
  split_ifs <;> omega

theorem roundHalfEven_le_floor_add_one (x : ℚ) : roundHalfEven x ≤ ⌊x⌋ + 1 := by
  unfold roundHalfEven
  split_ifs <;> omega

theorem roundHalfEven_mono {x y : ℚ} (h : x ≤ y) :
    roundHalfEven x ≤ roundHalfEven y := by
  have hf : ⌊x⌋ ≤ ⌊y⌋ := Int.floor_le_floor h
  rcases lt_or_eq_of_le hf with hlt | heq
  · calc roundHalfEven x ≤ ⌊x⌋ + 1 := roundHalfEven_le_floor_add_one x
      _ ≤ ⌊y⌋ := by omega
      _ ≤ roundHalfEven y := roundHalfEven_ge_floor y
  · unfold roundHalfEven
    rw [← heq]
    split_ifs <;> first | omega | linarith

theorem pyRound_mono (n : ℕ) {x y : ℚ} (h : x ≤ y) :
    pyRound x n ≤ pyRound y n := by
  unfold pyRound
  have h10 : (0 : ℚ) < 10 ^ n := by positivity
  have hm : roundHalfEven (x * 10 ^ n) ≤ roundHalfEven (y * 10 ^ n) :=
    roundHalfEven_mono (mul_le_mul_of_nonneg_right h (le_of_lt h10))
  have hmq : ((roundHalfEven (x * 10 ^ n) : ℤ) : ℚ) ≤ ((roundHalfEven (y * 10 ^ n) : ℤ) : ℚ) := by
    exact_mod_cast hm
  gcongr

theorem pyRound_eq_of_lt_half {x : ℚ} {n : ℕ} {f : ℤ} (h1 : (f : ℚ) ≤ x * 10 ^ n)
    (h2 : x * 10 ^ n < (f : ℚ) + 1/2) : pyRound x n = (f : ℚ) / 10 ^ n := by
  have hfl : ⌊x * 10 ^ n⌋ = f := by
    rw [Int.floor_eq_iff]
    exact ⟨h1, by linarith⟩
  unfold pyRound roundHalfEven
  rw [hfl, if_pos (by linarith)]

/-! ## Ledger bookkeeping lemmas -/

theorem resolvedCount_cons (t : Trade) (ts : List Trade) :
    resolvedCount (t :: ts) = (if t.resolved then 1 else 0) + resolvedCount ts := by
  unfold resolvedCount
  by_cases h : t.resolved <;> simp [List.filter_cons, h]
  omega

theorem resolvedPnlSum_cons (t : Trade) (ts : List Trade) :
    resolvedPnlSum (t :: ts) =
      (if t.resolved then t.pnl.getD 0 else 0) + resolvedPnlSum ts := by
  unfold resolvedPnlSum
  by_cases h : t.resolved <;> simp [List.filter_cons, h]

theorem resolvedCount_append_unresolved (ts : List Trade) {t : Trade}
    (h : t.resolved = false) : resolvedCount (ts ++ [t]) = resolvedCount ts := by
  unfold resolvedCount
  simp [List.filter_append, h]

theorem resolvedPnlSum_append_unresolved (ts : List Trade) {t : Trade}
    (h : t.resolved = false) : resolvedPnlSum (ts ++ [t]) = resolvedPnlSum ts := by
  unfold resolvedPnlSum
  simp [List.filter_append, h]

theorem resolveInTrades_some_spec (tid res : String) (pnl : ℚ) (now : String) :
    ∀ ts ts2 : List Trade, resolveInTrades ts tid res pnl now = some ts2 →
      (∀ t, findTrade ts tid = some t → t.resolved = false) →
      ts2.length = ts.length ∧
      resolvedCount ts2 = resolvedCount ts + 1 ∧
      resolvedPnlSum ts2 = resolvedPnlSum ts + pyRound pnl 4 := by
  intro ts
  induction ts with
  | nil => intro ts2 h; simp [resolveInTrades] at h
  | cons t rest ih =>
    intro ts2 h hunres
    by_cases hid : t.id = tid
    · have hres : t.resolved = false := hunres t (by simp [findTrade, hid])
      unfold resolveInTrades at h
      rw [if_pos hid] at h
      injection h with h2
      subst h2
      refine ⟨by simp, ?_, ?_⟩
      · rw [resolvedCount_cons, resolvedCount_cons]
        simp [hres]
        omega
      · rw [resolvedPnlSum_cons, resolvedPnlSum_cons]
        simp [hres]
        ring
    · unfold resolveInTrades at h
      rw [if_neg hid] at h
      cases hr : resolveInTrades rest tid res pnl now with
      | none => rw [hr] at h; cases h
      | some rest2 =>
        rw [hr] at h
        injection h with h2
        subst h2
        have hunres2 : ∀ t2, findTrade rest tid = some t2 → t2.resolved = false := by
          intro t2 ht2
          exact hunres t2 (by simp [findTrade, hid, ht2])
        obtain ⟨hl, hc, hs⟩ := ih rest2 hr hunres2
        refine ⟨by simp [hl], ?_, ?_⟩
        · rw [resolvedCount_cons, resolvedCount_cons, hc]
          omega
        · rw [resolvedPnlSum_cons, resolvedPnlSum_cons, hs]
          ring

theorem LedgerInv_default (now : String) : LedgerInv (defaultBotState now) :=
  ⟨rfl, rfl, rfl⟩

theorem LedgerInv_addTrade {s : BotState} {t : Trade} (hinv : LedgerInv s)
    (ht : t.resolved = false) : LedgerInv (addTrade s t) := by
  obtain ⟨h1, h2, h3⟩ := hinv
  refine ⟨?_, ?_, ?_⟩
  · simp [addTrade, h1]
  · simpa [addTrade, resolvedCount_append_unresolved _ ht] using h2
  · simpa [addTrade, resolvedPnlSum_append_unresolved _ ht] using h3

theorem LedgerInv_resolveTrade {s : BotState} (tid res : String) (pnl : ℚ)
    (now : String) (hinv : LedgerInv s)
    (hunres : ∀ t, findTrade s.trades tid = some t → t.resolved = false)
    (hround : pyRound pnl 4 = pnl) :
    LedgerInv (resolveTrade s tid res pnl now) := by
  obtain ⟨h1, h2, h3⟩ := hinv
  unfold resolveTrade
  cases hr : resolveInTrades s.trades tid res pnl now with
  | none => exact ⟨h1, h2, h3⟩
  | some ts2 =>
    obtain ⟨hl, hc, hs⟩ :=
      resolveInTrades_some_spec tid res pnl now s.trades ts2 hr hunres
    refine ⟨?_, ?_, ?_⟩
    · simp [hl, h1]
    · show (if res = "win" then s.totals.wins + 1 else s.totals.wins) +
        (if res = "win" then s.totals.losses else s.totals.losses + 1) =
        resolvedCount ts2
      rw [hc, ← h2]
      by_cases hres : res = "win" <;> simp [hres] <;> omega
    · show s.totals.pnl + pnl = resolvedPnlSum ts2
      rw [hs, ← h3, hround]

/-! ## Sizing lemmas -/

theorem fixedSize_anti (cfg : RiskConfig) (hbase : 0 ≤ cfg.base_bet)
    {p1 p2 : ℚ} (hp : p1 ≤ p2) : fixedSize cfg p2 ≤ fixedSize cfg p1 := by
  unfold fixedSize
  split_ifs <;> linarith

theorem clampBet_mono (cfg : RiskConfig) {a b : ℚ} (h : a ≤ b) :
    clampBet cfg a ≤ clampBet cfg b :=
  max_le_max le_rfl (min_le_min le_rfl h)

theorem getPositionSize_fixed (cfg : RiskConfig) (hmode : cfg.sizing_mode = "fixed")
    (p : ℚ) (d st : String) (bk : Option ℚ) :
    getPositionSize cfg p d st bk 0 = pyRound (clampBet cfg (fixedSize cfg p)) 2 := by
  simp [getPositionSize, hmode]

theorem getPositionSize_kelly (cfg : RiskConfig) (hmode : cfg.sizing_mode = "kelly")
    {b : ℚ} (hb : b ≠ 0) (p : ℚ) (d st : String) :
    getPositionSize cfg p d st (some b) 0 =
      pyRound (clampBet cfg (kellySize cfg b (lookupWinRate cfg st d) p (1/2))) 2 := by
  have h1 : ("kelly" : String) ≠ "fixed" := by decide
  have h2 : ("kelly" : String) ≠ "percent" := by decide
  have htr : truthyBankroll (some b) = true := by simp [truthyBankroll, hb]
  simp [getPositionSize, hmode, h1, h2, htr]

/-! ## Persistence round-trip lemmas -/

theorem decodeNat_natCast (n : ℕ) : decodeNat (Json.num n) = some n := by
  simp [decodeNat, Rat.num_natCast]

theorem decodeTrade_encodeTrade (t : Trade) : decodeTrade (encodeTrade t) = some t := by
  rcases t with ⟨tid, ts, mid, tok, dir, outc, ep, sz, am, oid, txh, strat, resv, res, pnl, rt⟩
  cases oid <;> cases txh <;> cases res <;> cases pnl <;> cases rt <;> rfl

theorem decodeTradeList_map (l : List Trade) :
    decodeTradeList (l.map encodeTrade) = some l := by
  induction l with
  | nil => rfl
  | cons t rest ih => simp [decodeTradeList, decodeTrade_encodeTrade, ih]

theorem decodeTotals_encode (tot : Totals) (j : Json)
    (h : j.getItem "totals" = Except.ok (encodeTotals tot)) :
    decodeTotals j = some tot := by
  obtain ⟨pnl, w, l, tt⟩ := tot
  unfold decodeTotals
  rw [h]
  simp [encodeTotals, decodeNat_natCast]

/-! ## Claim checks -/

/-- Claim C1: the code has no guard against re-resolution.  Evaluating
`resolve_trade` at the failing input (resolve the same id twice, each a win
of 10) shows the second call is applied again: `totals.pnl` goes from 10 to
20 and `wins` from 1 to 2, while the ledger still holds a single resolved
trade — the pnl is counted into the totals twice. -/
theorem C1_second_resolve_double_counts :
    resolvedOnce.totals.pnl = 10 ∧ resolvedOnce.totals.wins = 1 ∧
    resolvedTwice.totals.pnl = 20 ∧ resolvedTwice.totals.wins = 2 ∧
    resolvedTwice.totals.losses = 0 ∧ resolvedTwice.totals.total_trades = 1 ∧
    resolvedCount resolvedTwice.trades = 1 := by
  refine ⟨?_, rfl, ?_, rfl, rfl, rfl, rfl⟩
  · show (0 : ℚ) + 10 = 10
    norm_num
  · show (0 : ℚ) + 10 + 10 = 20
    norm_num

/-- Claim C2, counterexample: the invariant `totals.pnl = sum of pnl over
resolved trades` already fails after a single well-formed `resolve_trade`
call with pnl = 1/3, because the trade stores `round(pnl, 4)` while the
totals accumulate the unrounded value. -/
theorem C2_counterexample : ¬ LedgerInv resolvedThird := by
  intro h
  have hpnl : resolvedThird.totals.pnl = resolvedPnlSum resolvedThird.trades := h.2.2
  have hlhs : resolvedThird.totals.pnl = (0 : ℚ) + 1/3 := rfl
  have hrhs : resolvedPnlSum resolvedThird.trades = pyRound (1/3) 4 + 0 := rfl
  have hround : pyRound ((1 : ℚ)/3) 4 = ((3333 : ℤ) : ℚ) / 10 ^ 4 :=
    pyRound_eq_of_lt_half (by norm_num) (by norm_num)
  rw [hlhs, hrhs, hround] at hpnl
  norm_num at hpnl

/-- Claim C2, amended: the ledger invariants hold in the default state and
are preserved by `add_trade` of an unresolved trade, and by `resolve_trade`
when the target id is absent or names an unresolved trade and the pnl is
representable in 4 decimal places (so that the stored rounded pnl equals
the amount added to the totals). -/
theorem C2_ledger_invariants_amended :
    (∀ now, LedgerInv (defaultBotState now)) ∧
    (∀ (s : BotState) (t : Trade), LedgerInv s → t.resolved = false →
      LedgerInv (addTrade s t)) ∧
    (∀ (s : BotState) (tid res : String) (pnl : ℚ) (now : String),
      LedgerInv s →
      (∀ t, findTrade s.trades tid = some t → t.resolved = false) →
      pyRound pnl 4 = pnl →
      LedgerInv (resolveTrade s tid res pnl now)) :=
  ⟨LedgerInv_default,
   fun _ _ hi ht => LedgerInv_addTrade hi ht,
   fun _ tid res pnl now hi hu hr => LedgerInv_resolveTrade tid res pnl now hi hu hr⟩

/-- Claim C2, witness: the amended preservation applied along the concrete
trace add `sampleTrade`, resolve it once as a win of 10. -/
theorem C2_witness : LedgerInv resolvedOnce := by
  refine C2_ledger_invariants_amended.2.2 sampleLedger "t1" "win" 10
    "2026-10-12T10:00:00+00:00" ?_ ?_ ?_
  · exact C2_ledger_invariants_amended.2.1 _ _
      (C2_ledger_invariants_amended.1 _) rfl
  · intro t ht
    have he : sampleTrade = t :=
      Option.some.inj
        ((rfl : findTrade sampleLedger.trades "t1" = some sampleTrade).symm.trans ht)
    rw [← he]
    rfl
  · have h10 : pyRound (10 : ℚ) 4 = ((100000 : ℤ) : ℚ) / 10 ^ 4 :=
      pyRound_eq_of_lt_half (by norm_num) (by norm_num)
    rw [h10]
    norm_num

/-- Claim C3, counterexample: in kelly mode with the default configuration
(min_bet = 3) and bankroll 20, the returned size is 3, which exceeds 10% of
the bankroll (2) — the `[min_bet, max_bet]` clamp and the degenerate
fallbacks of `_kelly_size` are not subject to the 10% cap. -/
theorem C3_counterexample :
    getPositionSize kellyCfg (9/20) "long" "default" (some 20) 0 = 3 ∧
    ¬ getPositionSize kellyCfg (9/20) "long" "default" (some 20) 0 ≤ 20 * (1/10) := by
  have htru : truthyBankroll (some 20) = true := by norm_num [truthyBankroll]
  have hks : kellySize kellyCfg 20 (11/20) (9/20) (1/2) = 20/11 := by
    norm_num [kellySize, kellyCfg, min_def]
  have hcl : clampBet kellyCfg (20/11) = 3 := by
    norm_num [clampBet, kellyCfg, max_def, min_def]
  have hgp : getPositionSize kellyCfg (9/20) "long" "default" (some 20) 0 = 3 := by
    rw [getPositionSize_kelly kellyCfg rfl (by norm_num) (9/20) "long" "default"]
    have hlook : lookupWinRate kellyCfg "default" "long" = 11/20 := rfl
    rw [hlook, hks, hcl,
      pyRound_eq_of_lt_half (f := 300) (by norm_num) (by norm_num)]
    norm_num
  refine ⟨hgp, by rw [hgp]; norm_num⟩

/-- Claim C3, amended: `_kelly_size` never exceeds the larger of `min_bet`
and 10% of the bankroll (the 10% hard cap applies to the Kelly formula
output, while the degenerate cases return `min_bet`); the spec example
holds exactly: win_rate 0.6, entry 0.4, bankroll 1000, fraction 0.5 gives
100. -/
theorem C3_kelly_cap_amended :
    (∀ (cfg : RiskConfig) (bankroll win_rate entry_price fraction : ℚ),
      kellySize cfg bankroll win_rate entry_price fraction ≤
        max cfg.min_bet (bankroll * (1/10))) ∧
    kellySize { } 1000 (3/5) (2/5) (1/2) = 100 := by
  refine ⟨?_, by norm_num [kellySize, min_def]⟩
  intro cfg bankroll wr ep fr
  simp only [kellySize]
  split_ifs
  · exact le_max_left _ _
  · exact le_max_left _ _
  · exact le_trans (min_le_right _ _) (le_max_right _ _)

/-- Claim C4: the daily P&L used by the kill switch filters resolved trades
by their CREATION timestamp, not their resolution date.  A trade created on
2026-10-11 and resolved on 2026-10-12 at -50 contributes nothing to the
code's daily P&L for 2026-10-12, while the spec's resolution-date filter
counts it. -/
theorem C4_daily_pnl_uses_creation_date :
    calculateDailyPnl "2026-10-12" [overnightTrade] = 0 ∧
    specDailyPnl "2026-10-12" [overnightTrade] = -50 := by
  constructor
  · rfl
  · show (0 : ℚ) + (-50) = -50
    norm_num

/-- Claim C5, counterexample: `check_kill_switch` throws.  With total
realized P&L -600 against `max_total_loss` 500 it raises
`KillSwitchTriggered` (modelled as `Except.error`) instead of returning a
three-state value. -/
theorem C5_counterexample :
    checkKillSwitch { } (some deepLossState) 0 "2026-10-12" =
      Except.error "total loss limit exceeded" := rfl

/-- Claim C5, amended: `check_kill_switch` distinguishes the claimed three
outcomes in the claimed order, but signals the two HardStop conditions by
raising `KillSwitchTriggered` (here `Except.error`) rather than returning
them; Pause is the returned value `False` and Continue the returned value
`True`. -/
theorem C5_kill_switch_three_state_amended (cfg : RiskConfig) (s : BotState)
    (cl : ℕ) (today : String) :
    ((∃ e, checkKillSwitch cfg (some s) cl today = Except.error e) ↔
      (s.totals.pnl < -cfg.max_total_loss ∨
        calculateDailyPnl today s.trades < -cfg.max_daily_loss)) ∧
    (checkKillSwitch cfg (some s) cl today = Except.ok false ↔
      (¬ s.totals.pnl < -cfg.max_total_loss ∧
        ¬ calculateDailyPnl today s.trades < -cfg.max_daily_loss ∧
        (cfg.max_consecutive_losses ≤ cl ∨
          cfg.max_open_positions ≤ (unresolvedTrades s).length))) ∧
    (checkKillSwitch cfg (some s) cl today = Except.ok true ↔
      (¬ s.totals.pnl < -cfg.max_total_loss ∧
        ¬ calculateDailyPnl today s.trades < -cfg.max_daily_loss ∧
        ¬ cfg.max_consecutive_losses ≤ cl ∧
        ¬ cfg.max_open_positions ≤ (unresolvedTrades s).length)) := by
  by_cases h1 : s.totals.pnl < -cfg.max_total_loss <;>
  by_cases h2 : calculateDailyPnl today s.trades < -cfg.max_daily_loss <;>
  by_cases h3 : cfg.max_consecutive_losses ≤ cl <;>
  by_cases h4 : cfg.max_open_positions ≤ (unresolvedTrades s).length <;>
  simp [checkKillSwitch, h1, h2, h3, h4]

/-- Claim C6: the `continue` taken when order submission returns no order
identifier jumps past the backoff block, so a run of three no-id attempts
sleeps zero times (the claim expects waits of 2 then 4), while the
exception path does back off with 2 then 4. -/
theorem C6_no_backoff_after_missing_order_id :
    (executeWithRetry { } (fun _ => AttemptOutcome.noId)).2 = [] ∧
    (executeWithRetry { } (fun _ => AttemptOutcome.noId)).1.success = false ∧
    (executeWithRetry { } (fun _ => AttemptOutcome.raised "submit failed")).2 = [2, 4] := by
  refine ⟨rfl, rfl, ?_⟩
  have h : (executeWithRetry { } (fun _ => AttemptOutcome.raised "submit failed")).2
      = [2 * 2 ^ 0, 2 * 2 ^ 1] := rfl
  rw [h]
  norm_num

/-- Claim C7: `_load` only catches `JSONDecodeError` and `KeyError`; a file
whose contents parse to a non-object (here the JSON document `[]`) makes
the `state['totals']` access raise an uncaught `TypeError` instead of
falling back to the default ledger. -/
theorem C7_load_raises_typeerror_on_nonobject :
    loadState (LoadInput.parsed (Json.arr [])) "2026-10-12T00:00:00+00:00" =
      Except.error PyErr.typeError := rfl

/-- Claim C8: fixed-mode position sizing (before any loss-streak penalty,
i.e. with a consecutive-loss counter of 0) is non-increasing in the entry
price for any configuration with a non-negative base bet, and takes the
spec's tier values base×1.5 / ×1.0 / ×0.75 / ×0.5 at prices
0.35 / 0.45 / 0.52 / 0.60 for base 5 under a wide clamp. -/
theorem C8_fixed_tiers_and_monotone :
    (∀ (cfg : RiskConfig) (p1 p2 : ℚ) (d st : String) (bk : Option ℚ),
      cfg.sizing_mode = "fixed" → 0 ≤ cfg.base_bet → p1 ≤ p2 →
      getPositionSize cfg p2 d st bk 0 ≤ getPositionSize cfg p1 d st bk 0) ∧
    getPositionSize tierCfg (7/20) "long" "default" none 0 = 15/2 ∧
    getPositionSize tierCfg (9/20) "long" "default" none 0 = 5 ∧
    getPositionSize tierCfg (13/25) "long" "default" none 0 = 15/4 ∧
    getPositionSize tierCfg (3/5) "long" "default" none 0 = 5/2 := by
  have heval : ∀ (p : ℚ) (v : ℚ) (f : ℤ),
      clampBet tierCfg (fixedSize tierCfg p) = v → (f : ℚ) ≤ v * 10 ^ 2 →
      v * 10 ^ 2 < (f : ℚ) + 1/2 → (f : ℚ) / 10 ^ 2 = v →
      getPositionSize tierCfg p "long" "default" none 0 = v := by
    intro p v f hcl h1 h2 hf
    rw [getPositionSize_fixed tierCfg rfl, hcl,
      pyRound_eq_of_lt_half (f := f) h1 h2, hf]
  refine ⟨?_,
    heval _ _ 750 (by norm_num [clampBet, fixedSize, tierCfg, max_def, min_def])
      (by norm_num) (by norm_num) (by norm_num),
    heval _ _ 500 (by norm_num [clampBet, fixedSize, tierCfg, max_def, min_def])
      (by norm_num) (by norm_num) (by norm_num),
    heval _ _ 375 (by norm_num [clampBet, fixedSize, tierCfg, max_def, min_def])
      (by norm_num) (by norm_num) (by norm_num),
    heval _ _ 250 (by norm_num [clampBet, fixedSize, tierCfg, max_def, min_def])
      (by norm_num) (by norm_num) (by norm_num)⟩
  intro cfg p1 p2 d st bk hmode hbase hp
  rw [getPositionSize_fixed cfg hmode, getPositionSize_fixed cfg hmode]
  exact pyRound_mono 2 (clampBet_mono cfg (fixedSize_anti cfg hbase hp))

/-- Claim C8, witness: the monotonicity part applied at prices 0.35 ≤ 0.60
under `tierCfg`. -/
theorem C8_witness :
    getPositionSize tierCfg (3/5) "long" "default" none 0 ≤
      getPositionSize tierCfg (7/20) "long" "default" none 0 :=
  C8_fixed_tiers_and_monotone.1 tierCfg (7/20) (3/5) "long" "default" none
    rfl (by norm_num [tierCfg]) (by norm_num)

/-- Claim C9: saving any ledger state and loading the saved document
succeeds (no fallback to the default) and reproduces an identical trade
sequence and identical totals. -/
theorem C9_save_load_roundtrip (s : BotState) (tSave tLoad : String) :
    loadState (LoadInput.parsed (saveJson s tSave)) tLoad =
      Except.ok (saveJson s tSave) ∧
    decodeTrades (saveJson s tSave) = some s.trades ∧
    decodeTotals (saveJson s tSave) = some s.totals :=
  ⟨rfl, decodeTradeList_map s.trades, decodeTotals_encode s.totals _ rfl⟩

/-- Claim C10: the all-zero orderbook (an empty book: bid 0, ask 0,
spread 0) passes `execute_buy`'s spread and price pre-checks, and the share
size computation `amount_usd / ask` then raises `ZeroDivisionError`
instead of producing a failure result — with the default max price and
with an explicit one alike. -/
theorem C10_zero_ask_division_by_zero :
    executeBuyPrep { } ⟨0, 0, 0⟩ 100 none = Except.error PyErr.zeroDivisionError ∧
    executeBuyPrep { } ⟨0, 0, 0⟩ 50 (some (3/5)) =
      Except.error PyErr.zeroDivisionError := by
  constructor <;> norm_num [executeBuyPrep, pyDiv]

end PolyBot
